import Mathlib

/-
Verification of the defmeta rolling-metrics engine (calculate_metrics.py and
the vote-estimation helpers) against its natural-language specification.

Conventions of the shallow embedding:
* Calendar dates are integers (day numbers); a DateTimeField that the code
  only ever stores and compares at day granularity is embedded as its date.
* Nullable numeric columns are Option values; Django's Avg aggregate is
  dbAvg (nulls ignored, None on an empty set of non-null values).
* The ORM tables written by the engine (SubredditMetrics, GlobalMetrics,
  MetricsDispersion) are not part of the tracked source tree; following the
  update_or_create calls they are modelled as association lists keyed by the
  natural key, with upsert replacing the value at the first matching key.
* Python's statistics.stdev takes a real square root, embedded via Real.sqrt;
  everything else is executable.
-/

namespace Defmeta

/-- Lookup by key in an association-list store (first match, the unique-row
reading of objects.get / dict access under the unique-key constraints). -/
def alookup {κ α : Type} [DecidableEq κ] (k : κ) : List (κ × α) → Option α
  | [] => none
  | (k2, v) :: rest => if k = k2 then some v else alookup k rest

/-- Django update_or_create keyed by k: replace the value at the first row
with key k, or append a new row. -/
def upsert {κ α : Type} [DecidableEq κ] (k : κ) (v : α) : List (κ × α) → List (κ × α)
  | [] => [(k, v)]
  | (k2, v2) :: rest => if k = k2 then (k, v) :: rest else (k2, v2) :: upsert k v rest

/-- A sequence of update_or_create calls, applied left to right. -/
def applyWrites {κ α : Type} [DecidableEq κ] (s : List (κ × α)) : List ((κ × α)) → List (κ × α)
  | [] => s
  | (k, v) :: ws => applyWrites (upsert k v s) ws

/-- One SubredditDailyStats row, restricted to the columns the metrics engine
reads: the creation date (date part of the auto_now_add date_created) and the
two nullable counters. -/
structure Snapshot where
  date_created : ℤ
  subscribers_count : Option ℤ
  posts_count : Option ℤ
deriving DecidableEq, Repr

/-- One Post row, restricted to the columns the metrics engine reads.
created_local is populated by the collectors with a plain date (midnight),
so it is embedded as the date. -/
structure PostRow where
  created_local : ℤ
  engagement_collected : Bool
  score : Option ℤ
  num_comments : Option ℤ
  estimated_upvotes : Option ℤ
deriving DecidableEq, Repr

/-- Django Avg over a nullable integer column: null rows are excluded from
numerator and denominator; NULL when no non-null value exists. -/
def dbAvg (l : List (Option ℤ)) : Option ℚ :=
  let vs := l.filterMap id
  if vs.length = 0 then none else some ((vs.sum : ℚ) / (vs.length : ℚ))

/-- The snapshot-window filter of calculate_subreddit_rolling_stats:
date_created (date part) between the two bounds inclusive. -/
def snapshot_window (start_date end_date : ℤ) (snaps : List Snapshot) : List Snapshot :=
  snaps.filter (fun s =>
    decide (start_date ≤ s.date_created) && decide (s.date_created ≤ end_date))

/-- The engagement-window filter of calculate_subreddit_rolling_stats:
created_local between the two bounds inclusive and engagement_collected. -/
def post_window (start_date end_date : ℤ) (posts : List PostRow) : List PostRow :=
  posts.filter (fun p =>
    decide (start_date ≤ p.created_local) && decide (p.created_local ≤ end_date)
      && p.engagement_collected)

/-- The ten rolling averages produced for one subreddit and one date
(the dict returned by calculate_subreddit_rolling_stats). -/
structure RollingStats where
  subscribers_7day_avg : Option ℚ
  posts_7day_avg : Option ℚ
  score_7day_avg : Option ℚ
  comments_7day_avg : Option ℚ
  upvotes_7day_avg : Option ℚ
  subscribers_30day_avg : Option ℚ
  posts_30day_avg : Option ℚ
  score_30day_avg : Option ℚ
  comments_30day_avg : Option ℚ
  upvotes_30day_avg : Option ℚ
deriving DecidableEq, Repr

/-- Body of calculate_subreddit_rolling_stats: the snapshot windows filter on
the date part of date_created in [D-6, D] and [D-29, D]; the engagement
windows filter Post rows with engagement_collected and created_local in
[D-9, D-3] and [D-32, D-3]; each average is a Django Avg. -/
def rolling_stats_record (snaps : List Snapshot) (posts : List PostRow)
    (calc_date : ℤ) : RollingStats :=
  let snapshots_7day := snapshot_window (calc_date - 6) calc_date snaps
  let snapshots_30day := snapshot_window (calc_date - 29) calc_date snaps
  let posts_7day := post_window (calc_date - 9) (calc_date - 3) posts
  let posts_30day := post_window (calc_date - 32) (calc_date - 3) posts
  { subscribers_7day_avg := dbAvg (snapshots_7day.map Snapshot.subscribers_count)
    posts_7day_avg := dbAvg (snapshots_7day.map Snapshot.posts_count)
    score_7day_avg := dbAvg (posts_7day.map PostRow.score)
    comments_7day_avg := dbAvg (posts_7day.map PostRow.num_comments)
    upvotes_7day_avg := dbAvg (posts_7day.map PostRow.estimated_upvotes)
    subscribers_30day_avg := dbAvg (snapshots_30day.map Snapshot.subscribers_count)
    posts_30day_avg := dbAvg (snapshots_30day.map Snapshot.posts_count)
    score_30day_avg := dbAvg (posts_30day.map PostRow.score)
    comments_30day_avg := dbAvg (posts_30day.map PostRow.num_comments)
    upvotes_30day_avg := dbAvg (posts_30day.map PostRow.estimated_upvotes) }

/-- calculate_subreddit_rolling_stats: the function is documented as
returning None on insufficient data, but its single return statement always
produces the dict of ten averages. -/
def calculate_subreddit_rolling_stats (snaps : List Snapshot) (posts : List PostRow)
    (calc_date : ℤ) : Option RollingStats :=
  some (rolling_stats_record snaps posts calc_date)

/-- calculate_wow_change: week-over-week percentage change, None when either
input is None or the previous value is zero. -/
def calculate_wow_change (current_value previous_value : Option ℚ) : Option ℚ :=
  match current_value, previous_value with
  | some c, some p => if p = 0 then none else some ((c - p) / p * 100)
  | _, _ => none

/-- The hard-coded capital-entity name excluded from rankings and global
aggregates. -/
def DC_SUBREDDIT_NAME : String := "washingtondc"

/-- The covered date of a snapshot: the day before its creation date
(the daily collection job records the previous day's data). -/
def covered_date (s : Snapshot) : ℤ := s.date_created - 1

/-- Definition following the claim's words (refinement target for the
snapshot windows): the mean of a nullable snapshot field over the rows whose
covered date falls in [D - span + 1, D]. -/
def claimed_window_avg (field : Snapshot → Option ℤ) (span : ℤ)
    (snaps : List Snapshot) (calc_date : ℤ) : Option ℚ :=
  dbAvg ((snaps.filter (fun s =>
    decide (calc_date - span + 1 ≤ covered_date s) && decide (covered_date s ≤ calc_date))).map field)

/-- Descending comparison on (name, value) pairs used by calculate_ranks:
sorted(key=value, reverse=True), which is stable on ties. -/
def rankOrd (a b : String × ℚ) : Prop := b.2 ≤ a.2

instance : DecidableRel rankOrd := fun a b => inferInstanceAs (Decidable (b.2 ≤ a.2))

instance : IsTotal (String × ℚ) rankOrd := ⟨fun a b => le_total b.2 a.2⟩

instance : IsTrans (String × ℚ) rankOrd := ⟨fun _ _ _ hab hbc => le_trans hbc hab⟩

/-- The valid_entries filter of calculate_ranks: drop the capital entity
(case-insensitive name match) and entries whose metric value is None. -/
def validEntries (l : List (String × Option ℚ)) : List (String × ℚ) :=
  l.filterMap (fun p =>
    match p.2 with
    | some v => if p.1.toLower = DC_SUBREDDIT_NAME.toLower then none else some (p.1, v)
    | none => none)

/-- enumerate(sorted_entries, start=k): pair each entry's name with its
1-based position. -/
def ranksFrom : ℕ → List (String × ℚ) → List (String × ℕ)
  | _, [] => []
  | k, e :: rest => (e.1, k) :: ranksFrom (k + 1) rest

/-- calculate_ranks: filter to valid entries, stable-sort descending by
value, and map each name to its 1-based position. -/
def calculate_ranks (l : List (String × Option ℚ)) : List (String × ℕ) :=
  let valid_entries := validEntries l
  let sorted_entries := valid_entries.insertionSort rankOrd
  ranksFrom 1 sorted_entries

/-- The rank stored for one subreddit in step 3 of calculate_metrics_for_date:
None for the capital entity, otherwise all_ranks[rank_field].get(name). -/
def stored_rank (l : List (String × Option ℚ)) (name : String) : Option ℕ :=
  if name.toLower = DC_SUBREDDIT_NAME.toLower then none
  else alookup name (calculate_ranks l)

/-- Python min over a nonempty list (0 as junk value for the empty list,
unreachable at the call site). -/
def listMin : List ℚ → ℚ
  | [] => 0
  | x :: xs => xs.foldl min x

/-- Python max over a nonempty list (0 as junk value for the empty list,
unreachable at the call site). -/
def listMax : List ℚ → ℚ
  | [] => 0
  | x :: xs => xs.foldl max x

/-- statistics.median: middle element of the ascending-sorted list for odd
length, mean of the two middle elements for even length. -/
def pyMedian (l : List ℚ) : ℚ :=
  let s := l.insertionSort (fun a b => a ≤ b)
  let n := s.length
  if n % 2 = 1 then s.getD (n / 2) 0
  else (s.getD (n / 2 - 1) 0 + s.getD (n / 2) 0) / 2

/-- Sample variance, the square of statistics.stdev: sum of squared
deviations from the mean divided by n - 1. -/
def sampleVariance (l : List ℚ) : ℚ :=
  let m := l.sum / (l.length : ℚ)
  ((l.map (fun x => (x - m) ^ 2)).sum) / ((l.length : ℚ) - 1)

/-- statistics.stdev: the square root of the sample variance. -/
noncomputable def pyStdev (l : List ℚ) : ℝ :=
  Real.sqrt ((sampleVariance l : ℚ) : ℝ)

/-- One MetricsDispersion row (the dict returned by
calculate_dispersion_stats). -/
structure DispersionRow where
  median : Option ℚ
  std_dev : Option ℝ
  min_value : Option ℚ
  max_value : Option ℚ
  p25 : Option ℚ
  p75 : Option ℚ

/-- calculate_dispersion_stats: None values filtered out; fewer than two
clean values yield the degenerate row; otherwise median, sample standard
deviation, min, max and the nearest-rank percentiles at indices
int(n * 0.25) = n / 4 and int(n * 0.75) = 3 * n / 4 of the ascending-sorted
list (the float products n * 0.25 and n * 0.75 are exact, so int() truncation
is integer division). -/
noncomputable def calculate_dispersion_stats (values : List (Option ℚ)) : DispersionRow :=
  let clean_values := values.filterMap id
  if clean_values.length < 2 then
    { median := clean_values.head?
      std_dev := none
      min_value := clean_values.head?
      max_value := clean_values.head?
      p25 := none
      p75 := none }
  else
    let sorted_values := clean_values.insertionSort (fun a b => a ≤ b)
    let n := sorted_values.length
    { median := some (pyMedian clean_values)
      std_dev := some (pyStdev clean_values)
      min_value := some (listMin clean_values)
      max_value := some (listMax clean_values)
      p25 := some (sorted_values.getD (n / 4) 0)
      p75 := some (sorted_values.getD (3 * n / 4) 0) }

/-- safe_mean: mean of the non-None values, None when there are none. -/
def safe_mean (values : List (Option ℚ)) : Option ℚ :=
  let clean_values := values.filterMap id
  if clean_values.length = 0 then none
  else some (clean_values.sum / (clean_values.length : ℚ))

/-- Python 3 round to the nearest integer, halves to even. -/
def pyRound (q : ℚ) : ℤ :=
  let f := ⌊q⌋
  if q - f < 1 / 2 then f
  else if 1 / 2 < q - f then f + 1
  else if f % 2 = 0 then f else f + 1

/-- calculate_estimated_votes (identical in collect_post_engagement.py and
backfill_post_votes_v2.py): estimated upvotes and downvotes from score and
upvote ratio, (None, None) when either input is None or the ratio is
exactly 0.5; otherwise total votes score / (2 r - 1), each side rounded. -/
def calculate_estimated_votes (score uvr : Option ℚ) : Option ℤ × Option ℤ :=
  match score, uvr with
  | some sc, some r =>
    if r = 1 / 2 then (none, none)
    else
      let total_votes := sc / (2 * r - 1)
      (some (pyRound (total_votes * r)), some (pyRound (total_votes * (1 - r))))
  | _, _ => (none, none)

/-- One SubredditMetrics row: ten rolling averages, five week-over-week
changes, five 7-day ranks. Modelled from the spec: the SubredditMetrics
model itself is not in the tracked source tree; its fields follow the dict
upserted by calculate_metrics_for_date and the attributes read back for the
WoW lookups. -/
structure SMRow where
  subscribers_7day_avg : Option ℚ
  posts_7day_avg : Option ℚ
  score_7day_avg : Option ℚ
  comments_7day_avg : Option ℚ
  upvotes_7day_avg : Option ℚ
  subscribers_30day_avg : Option ℚ
  posts_30day_avg : Option ℚ
  score_30day_avg : Option ℚ
  comments_30day_avg : Option ℚ
  upvotes_30day_avg : Option ℚ
  subscribers_wow_change : Option ℚ
  posts_wow_change : Option ℚ
  score_wow_change : Option ℚ
  comments_wow_change : Option ℚ
  upvotes_wow_change : Option ℚ
  subscribers_7day_rank : Option ℕ
  posts_7day_rank : Option ℕ
  score_7day_rank : Option ℕ
  comments_7day_rank : Option ℕ
  upvotes_7day_rank : Option ℕ
deriving DecidableEq, Repr

/-- One GlobalMetrics row. Modelled from the spec: field set follows the
global_data dict upserted by calculate_metrics_for_date. -/
structure GMRow where
  subscribers_7day_avg : Option ℚ
  posts_7day_avg : Option ℚ
  score_7day_avg : Option ℚ
  comments_7day_avg : Option ℚ
  upvotes_7day_avg : Option ℚ
  subscribers_30day_avg : Option ℚ
  posts_30day_avg : Option ℚ
  score_30day_avg : Option ℚ
  comments_30day_avg : Option ℚ
  upvotes_30day_avg : Option ℚ
  subscribers_wow_change : Option ℚ
  posts_wow_change : Option ℚ
  score_wow_change : Option ℚ
  comments_wow_change : Option ℚ
  upvotes_wow_change : Option ℚ
  subreddits_included : ℕ
deriving DecidableEq, Repr

/-- Natural key of a MetricsDispersion row:
(date, entity_type, subreddit, metric_name). -/
abbrev DispKey := ℤ × String × Option String × String

/-- The relational store as seen by the metrics engine: tracked subreddit
names, the two input tables, and the three output tables keyed by their
natural keys. -/
structure DB where
  subreddits : List String
  snapshots : List (String × Snapshot)
  posts : List (String × PostRow)
  subreddit_metrics : List ((String × ℤ) × SMRow)
  global_metrics : List (ℤ × GMRow)
  dispersion : List (DispKey × DispersionRow)

/-- SubredditDailyStats rows of one subreddit (the FK filter). -/
def entitySnapshots (db : DB) (name : String) : List Snapshot :=
  (db.snapshots.filter (fun p => decide (p.1 = name))).map Prod.snd

/-- Post rows of one subreddit (the FK filter). -/
def entityPosts (db : DB) (name : String) : List PostRow :=
  (db.posts.filter (fun p => decide (p.1 = name))).map Prod.snd

/-- get_previous_week_metrics: the SubredditMetrics row exactly 7 days
before the calculation date, None when absent. -/
def get_previous_week_metrics (db : DB) (name : String) (calc_date : ℤ) : Option SMRow :=
  alookup (name, calc_date - 7) db.subreddit_metrics

/-- The metrics dict for one subreddit after step 1 of
calculate_metrics_for_date: the ten averages plus the five WoW changes
(all None when no previous-week row exists); ranks not yet assigned. -/
def build_metrics_row (st : RollingStats) (prev : Option SMRow) : SMRow :=
  { subscribers_7day_avg := st.subscribers_7day_avg
    posts_7day_avg := st.posts_7day_avg
    score_7day_avg := st.score_7day_avg
    comments_7day_avg := st.comments_7day_avg
    upvotes_7day_avg := st.upvotes_7day_avg
    subscribers_30day_avg := st.subscribers_30day_avg
    posts_30day_avg := st.posts_30day_avg
    score_30day_avg := st.score_30day_avg
    comments_30day_avg := st.comments_30day_avg
    upvotes_30day_avg := st.upvotes_30day_avg
    subscribers_wow_change :=
      match prev with
      | some p => calculate_wow_change st.subscribers_7day_avg p.subscribers_7day_avg
      | none => none
    posts_wow_change :=
      match prev with
      | some p => calculate_wow_change st.posts_7day_avg p.posts_7day_avg
      | none => none
    score_wow_change :=
      match prev with
      | some p => calculate_wow_change st.score_7day_avg p.score_7day_avg
      | none => none
    comments_wow_change :=
      match prev with
      | some p => calculate_wow_change st.comments_7day_avg p.comments_7day_avg
      | none => none
    upvotes_wow_change :=
      match prev with
      | some p => calculate_wow_change st.upvotes_7day_avg p.upvotes_7day_avg
      | none => none
    subscribers_7day_rank := none
    posts_7day_rank := none
    score_7day_rank := none
    comments_7day_rank := none
    upvotes_7day_rank := none }

/-- Step 1 of calculate_metrics_for_date: for each subreddit compute the
rolling stats, skip it when they are None (the insufficient-data branch),
and attach the WoW changes. -/
def subreddit_metrics_data (db : DB) (calc_date : ℤ) : List (String × SMRow) :=
  db.subreddits.filterMap (fun name =>
    match calculate_subreddit_rolling_stats (entitySnapshots db name)
        (entityPosts db name) calc_date with
    | none => none
    | some st => some (name, build_metrics_row st (get_previous_week_metrics db name calc_date)))

/-- The (name, value) column handed to calculate_ranks for one metric. -/
def metricColumn (data : List (String × SMRow)) (f : SMRow → Option ℚ) :
    List (String × Option ℚ) :=
  data.map (fun p => (p.1, f p.2))

/-- Steps 2 and 3 (rank part): assign the five 7-day ranks to one
subreddit's row, None for the capital entity and for names absent from the
rank dict. -/
def assign_ranks (data : List (String × SMRow)) (name : String) (row : SMRow) : SMRow :=
  { row with
    subscribers_7day_rank := stored_rank (metricColumn data (fun r => r.subscribers_7day_avg)) name
    posts_7day_rank := stored_rank (metricColumn data (fun r => r.posts_7day_avg)) name
    score_7day_rank := stored_rank (metricColumn data (fun r => r.score_7day_avg)) name
    comments_7day_rank := stored_rank (metricColumn data (fun r => r.comments_7day_avg)) name
    upvotes_7day_rank := stored_rank (metricColumn data (fun r => r.upvotes_7day_avg)) name }

/-- The per-subreddit rows as they stand when upserted in step 3. -/
def ranked_rows (db : DB) (calc_date : ℤ) : List (String × SMRow) :=
  let data := subreddit_metrics_data db calc_date
  data.map (fun p => (p.1, assign_ranks data p.1 p.2))

/-- The step-3 update_or_create write list, keyed by (subreddit, date). -/
def smWrites (db : DB) (calc_date : ℤ) : List ((String × ℤ) × SMRow) :=
  (ranked_rows db calc_date).map (fun p => ((p.1, calc_date), p.2))

/-- The SubredditMetrics store after step 3. -/
def smAfter (db : DB) (calc_date : ℤ) : List ((String × ℤ) × SMRow) :=
  applyWrites db.subreddit_metrics (smWrites db calc_date)

/-- Step 4 input: the rows of all non-capital subreddits. -/
def non_dc_metrics (db : DB) (calc_date : ℤ) : List SMRow :=
  ((ranked_rows db calc_date).filter (fun p =>
    decide (p.1.toLower ≠ DC_SUBREDDIT_NAME.toLower))).map Prod.snd

/-- The GlobalMetrics row for the date: safe_mean of each average across
non-capital subreddits, WoW against the global row 7 days earlier. -/
def global_row (db : DB) (calc_date : ℤ) : GMRow :=
  let ms := non_dc_metrics db calc_date
  let prev := alookup (calc_date - 7) db.global_metrics
  let s7 := safe_mean (ms.map (fun m => m.subscribers_7day_avg))
  let p7 := safe_mean (ms.map (fun m => m.posts_7day_avg))
  let sc7 := safe_mean (ms.map (fun m => m.score_7day_avg))
  let c7 := safe_mean (ms.map (fun m => m.comments_7day_avg))
  let u7 := safe_mean (ms.map (fun m => m.upvotes_7day_avg))
  { subscribers_7day_avg := s7
    posts_7day_avg := p7
    score_7day_avg := sc7
    comments_7day_avg := c7
    upvotes_7day_avg := u7
    subscribers_30day_avg := safe_mean (ms.map (fun m => m.subscribers_30day_avg))
    posts_30day_avg := safe_mean (ms.map (fun m => m.posts_30day_avg))
    score_30day_avg := safe_mean (ms.map (fun m => m.score_30day_avg))
    comments_30day_avg := safe_mean (ms.map (fun m => m.comments_30day_avg))
    upvotes_30day_avg := safe_mean (ms.map (fun m => m.upvotes_30day_avg))
    subscribers_wow_change :=
      match prev with
      | some p => calculate_wow_change s7 p.subscribers_7day_avg
      | none => none
    posts_wow_change :=
      match prev with
      | some p => calculate_wow_change p7 p.posts_7day_avg
      | none => none
    score_wow_change :=
      match prev with
      | some p => calculate_wow_change sc7 p.score_7day_avg
      | none => none
    comments_wow_change :=
      match prev with
      | some p => calculate_wow_change c7 p.comments_7day_avg
      | none => none
    upvotes_wow_change :=
      match prev with
      | some p => calculate_wow_change u7 p.upvotes_7day_avg
      | none => none
    subreddits_included := ms.length }

/-- The GlobalMetrics store after step 4: written only when at least one
non-capital subreddit has a row. -/
def gmAfter (db : DB) (calc_date : ℤ) : List (ℤ × GMRow) :=
  if (non_dc_metrics db calc_date).length = 0 then db.global_metrics
  else upsert calc_date (global_row db calc_date) db.global_metrics

/-- The metric_to_field mapping of step 5, in dict insertion order. -/
def metric_to_field : List (String × (SMRow → Option ℚ)) :=
  [("subscribers_7day", fun r => r.subscribers_7day_avg),
   ("subscribers_30day", fun r => r.subscribers_30day_avg),
   ("posts_7day", fun r => r.posts_7day_avg),
   ("posts_30day", fun r => r.posts_30day_avg),
   ("score_7day", fun r => r.score_7day_avg),
   ("score_30day", fun r => r.score_30day_avg),
   ("comments_7day", fun r => r.comments_7day_avg),
   ("comments_30day", fun r => r.comments_30day_avg),
   ("upvotes_7day", fun r => r.upvotes_7day_avg),
   ("upvotes_30day", fun r => r.upvotes_30day_avg)]

/-- Step 5a: global dispersion writes, one row per metric name over the
non-capital subreddits' values for the date. -/
noncomputable def globalDispWrites (db : DB) (calc_date : ℤ) :
    List (DispKey × DispersionRow) :=
  metric_to_field.map (fun mf =>
    ((calc_date, "global", none, mf.1),
      calculate_dispersion_stats ((non_dc_metrics db calc_date).map mf.2)))

/-- Step 5b, one subreddit: dispersion writes over its SubredditMetrics
rows (as updated in step 3) in the trailing [D-6, D] window; skipped
entirely when fewer than 2 such rows exist. -/
noncomputable def subDispEntry (db : DB) (calc_date : ℤ) (p : String × SMRow) :
    List (DispKey × DispersionRow) :=
  let historical := (smAfter db calc_date).filter (fun q =>
    decide (q.1.1 = p.1) && decide (calc_date - 6 ≤ q.1.2) && decide (q.1.2 ≤ calc_date))
  if historical.length < 2 then []
  else metric_to_field.map (fun mf =>
    ((calc_date, "subreddit", some p.1, mf.1),
      calculate_dispersion_stats (historical.map (fun q => mf.2 q.2))))

/-- Step 5b: per-subreddit dispersion writes. -/
noncomputable def subDispWrites (db : DB) (calc_date : ℤ) :
    List (DispKey × DispersionRow) :=
  (ranked_rows db calc_date).flatMap (subDispEntry db calc_date)

/-- calculate_metrics_for_date: the full pipeline for one date — compute and
upsert SubredditMetrics, GlobalMetrics and MetricsDispersion rows. -/
noncomputable def calculate_metrics_for_date (db : DB) (calc_date : ℤ) : DB :=
  { db with
    subreddit_metrics := smAfter db calc_date
    global_metrics := gmAfter db calc_date
    dispersion := applyWrites db.dispersion
      (globalDispWrites db calc_date ++ subDispWrites db calc_date) }

/-- The per-subreddit loop of step 1 with a possibly-raising per-entity
computation f (Except.error standing for a raised exception): the loop body
contains no try/except, so the first error propagates; an ok none is the
insufficient-data skip. -/
def process_subreddits {ε M : Type} (f : String → Except ε (Option M)) :
    List String → Except ε (List (String × M))
  | [] => Except.ok []
  | n :: rest =>
    match f n with
    | Except.error e => Except.error e
    | Except.ok none => process_subreddits f rest
    | Except.ok (some m) =>
      match process_subreddits f rest with
      | Except.error e => Except.error e
      | Except.ok others => Except.ok ((n, m) :: others)

/-- backfill_metrics: run the pipeline once per date, oldest to newest,
catching and logging a per-date exception and continuing with the next
date. -/
def backfill_run {ε : Type} (runE : DB → ℤ → Except ε DB) : DB → List ℤ → DB
  | db, [] => db
  | db, d :: rest =>
    match runE db d with
    | Except.ok db2 => backfill_run runE db2 rest
    | Except.error _ => backfill_run runE db rest

/-- The backfill date list: today - days_back up to today, ascending. -/
def backfill_dates (today : ℤ) (days_back : ℕ) : List ℤ :=
  (List.range (days_back + 1)).map (fun i => today - ((days_back : ℤ) - (i : ℤ)))

/-- Snapshot rows whose covered date falls between the bounds (the claim's
window notion). -/
def covered_window (start_date end_date : ℤ) (snaps : List Snapshot) : List Snapshot :=
  snaps.filter (fun s =>
    decide (start_date ≤ covered_date s) && decide (covered_date s ≤ end_date))

/-- Arithmetic mean of a value list, None when empty (the claim's notion of
an average with nulls already removed). -/
def mean_or_none (vs : List ℤ) : Option ℚ :=
  if vs.length = 0 then none else some ((vs.sum : ℚ) / (vs.length : ℚ))

/-- Post rows with engagement collected and created_local between the
bounds, stated in the claim's order. -/
def engagement_mature_window (start_date end_date : ℤ) (posts : List PostRow) : List PostRow :=
  posts.filter (fun p =>
    p.engagement_collected && decide (start_date ≤ p.created_local)
      && decide (p.created_local ≤ end_date))

/- Helper lemmas. -/

lemma dbAvg_map {α : Type} (f : α → Option ℤ) (l : List α) :
    dbAvg (l.map f) = mean_or_none (l.filterMap f) := by
  simp [dbAvg, mean_or_none, List.filterMap_map, Function.id_comp]

lemma mean_or_none_eq_none_iff (vs : List ℤ) :
    mean_or_none vs = none ↔ vs = [] := by
  simp [mean_or_none, List.length_eq_zero]

lemma snapshot_window_eq_covered (a b : ℤ) (snaps : List Snapshot) :
    snapshot_window a b snaps = covered_window (a - 1) (b - 1) snaps := by
  unfold snapshot_window covered_window
  apply List.filter_congr
  intro s _
  have h1 : (a ≤ s.date_created) ↔ (a - 1 ≤ covered_date s) := by
    unfold covered_date; omega
  have h2 : (s.date_created ≤ b) ↔ (covered_date s ≤ b - 1) := by
    unfold covered_date; omega
  simp [h1, h2]

lemma post_window_eq_mature (a b : ℤ) (posts : List PostRow) :
    post_window a b posts = engagement_mature_window a b posts := by
  unfold post_window engagement_mature_window
  apply List.filter_congr
  intro p _
  cases hp : p.engagement_collected <;> simp [hp, Bool.and_comm]

/-- Claim C1 (amended): the 7-day and 30-day subscriber and post averages
are the arithmetic means of subscribers_count and posts_count over exactly
those DailySnapshot rows whose covered date (the day before the snapshot's
creation date) falls in [D-7, D-1] for the 7-day window and [D-30, D-1] for
the 30-day window, with null fields excluded from numerator and
denominator. -/
theorem claim_C1_amended (snaps : List Snapshot) (posts : List PostRow) (D : ℤ) :
    (rolling_stats_record snaps posts D).subscribers_7day_avg =
      mean_or_none ((covered_window (D - 7) (D - 1) snaps).filterMap Snapshot.subscribers_count) ∧
    (rolling_stats_record snaps posts D).posts_7day_avg =
      mean_or_none ((covered_window (D - 7) (D - 1) snaps).filterMap Snapshot.posts_count) ∧
    (rolling_stats_record snaps posts D).subscribers_30day_avg =
      mean_or_none ((covered_window (D - 30) (D - 1) snaps).filterMap Snapshot.subscribers_count) ∧
    (rolling_stats_record snaps posts D).posts_30day_avg =
      mean_or_none ((covered_window (D - 30) (D - 1) snaps).filterMap Snapshot.posts_count) := by
  have e7 : snapshot_window (D - 6) D snaps = covered_window (D - 7) (D - 1) snaps := by
    rw [snapshot_window_eq_covered]
    have : D - 6 - 1 = D - 7 := by ring
    rw [this]
  have e30 : snapshot_window (D - 29) D snaps = covered_window (D - 30) (D - 1) snaps := by
    rw [snapshot_window_eq_covered]
    have : D - 29 - 1 = D - 30 := by ring
    rw [this]
  refine ⟨?_, ?_, ?_, ?_⟩ <;>
    simp only [rolling_stats_record, e7, e30, dbAvg_map]

/-- Claim C1, as stated, is false: with a single snapshot created on day 0
holding 100 subscribers and calculation date 6, the code includes the row
(creation date inside [0, 6]) and returns average 100, while the claimed
covered-date window [0, 6] excludes it (covered date -1) and would give
null. -/
theorem claim_C1_counterexample :
    (rolling_stats_record [⟨0, some 100, some 5⟩] [] 6).subscribers_7day_avg = some 100 ∧
    claimed_window_avg Snapshot.subscribers_count 7 [⟨0, some 100, some 5⟩] 6 = none ∧
    (rolling_stats_record [⟨0, some 100, some 5⟩] [] 6).subscribers_7day_avg ≠
      claimed_window_avg Snapshot.subscribers_count 7 [⟨0, some 100, some 5⟩] 6 := by
  have h1 : (rolling_stats_record [⟨0, some 100, some 5⟩] [] 6).subscribers_7day_avg
      = some 100 := by
    simp [rolling_stats_record, snapshot_window, dbAvg]
  have h2 : claimed_window_avg Snapshot.subscribers_count 7 [⟨0, some 100, some 5⟩] 6
      = none := by
    simp [claimed_window_avg, covered_date, dbAvg]
  exact ⟨h1, h2, by rw [h1, h2]; simp⟩

/-- Claim C2: the 7-day and 30-day score, comments and upvotes averages are
arithmetic means over exactly the Post rows with engagement_collected true
whose created_local date falls in [D-9, D-3] (7-day) and [D-32, D-3]
(30-day), nulls excluded from numerator and denominator. -/
theorem claim_C2_engagement_windows (snaps : List Snapshot) (posts : List PostRow) (D : ℤ) :
    (rolling_stats_record snaps posts D).score_7day_avg =
      mean_or_none ((engagement_mature_window (D - 9) (D - 3) posts).filterMap PostRow.score) ∧
    (rolling_stats_record snaps posts D).comments_7day_avg =
      mean_or_none ((engagement_mature_window (D - 9) (D - 3) posts).filterMap PostRow.num_comments) ∧
    (rolling_stats_record snaps posts D).upvotes_7day_avg =
      mean_or_none ((engagement_mature_window (D - 9) (D - 3) posts).filterMap PostRow.estimated_upvotes) ∧
    (rolling_stats_record snaps posts D).score_30day_avg =
      mean_or_none ((engagement_mature_window (D - 32) (D - 3) posts).filterMap PostRow.score) ∧
    (rolling_stats_record snaps posts D).comments_30day_avg =
      mean_or_none ((engagement_mature_window (D - 32) (D - 3) posts).filterMap PostRow.num_comments) ∧
    (rolling_stats_record snaps posts D).upvotes_30day_avg =
      mean_or_none ((engagement_mature_window (D - 32) (D - 3) posts).filterMap PostRow.estimated_upvotes) := by
  refine ⟨?_, ?_, ?_, ?_, ?_, ?_⟩ <;>
    simp only [rolling_stats_record, post_window_eq_mature, dbAvg_map]

/-- Claim C8: an average is null exactly when its rolling window contains
zero qualifying (non-null) rows, never zero and never an exception (the
computation is total); a missing previous-week record makes every WoW
change null; and a subreddit with no previous-week row gets null WoW
changes rather than an error. -/
theorem claim_C8_empty_windows_null :
    (∀ (snaps : List Snapshot) (posts : List PostRow) (D : ℤ),
      ((rolling_stats_record snaps posts D).subscribers_7day_avg = none ↔
        (snapshot_window (D - 6) D snaps).filterMap Snapshot.subscribers_count = []) ∧
      ((rolling_stats_record snaps posts D).posts_7day_avg = none ↔
        (snapshot_window (D - 6) D snaps).filterMap Snapshot.posts_count = []) ∧
      ((rolling_stats_record snaps posts D).score_7day_avg = none ↔
        (post_window (D - 9) (D - 3) posts).filterMap PostRow.score = []) ∧
      ((rolling_stats_record snaps posts D).comments_7day_avg = none ↔
        (post_window (D - 9) (D - 3) posts).filterMap PostRow.num_comments = []) ∧
      ((rolling_stats_record snaps posts D).upvotes_7day_avg = none ↔
        (post_window (D - 9) (D - 3) posts).filterMap PostRow.estimated_upvotes = []) ∧
      ((rolling_stats_record snaps posts D).subscribers_30day_avg = none ↔
        (snapshot_window (D - 29) D snaps).filterMap Snapshot.subscribers_count = []) ∧
      ((rolling_stats_record snaps posts D).posts_30day_avg = none ↔
        (snapshot_window (D - 29) D snaps).filterMap Snapshot.posts_count = []) ∧
      ((rolling_stats_record snaps posts D).score_30day_avg = none ↔
        (post_window (D - 32) (D - 3) posts).filterMap PostRow.score = []) ∧
      ((rolling_stats_record snaps posts D).comments_30day_avg = none ↔
        (post_window (D - 32) (D - 3) posts).filterMap PostRow.num_comments = []) ∧
      ((rolling_stats_record snaps posts D).upvotes_30day_avg = none ↔
        (post_window (D - 32) (D - 3) posts).filterMap PostRow.estimated_upvotes = [])) ∧
    (∀ st : RollingStats,
      (build_metrics_row st none).subscribers_wow_change = none ∧
      (build_metrics_row st none).posts_wow_change = none ∧
      (build_metrics_row st none).score_wow_change = none ∧
      (build_metrics_row st none).comments_wow_change = none ∧
      (build_metrics_row st none).upvotes_wow_change = none) := by
  constructor
  · intro snaps posts D
    refine ⟨?_, ?_, ?_, ?_, ?_, ?_, ?_, ?_, ?_, ?_⟩ <;>
      simp only [rolling_stats_record, dbAvg_map, mean_or_none_eq_none_iff]
  · intro st
    exact ⟨rfl, rfl, rfl, rfl, rfl⟩

/-- Claim C5: calculate_wow_change returns (current - previous) / previous
* 100, null exactly when an input is null or previous is zero (so wow(x, x)
is 0 for nonzero x); the previous value is an exact-equality lookup at
date D-7, and when that lookup is empty every WoW field of the built row is
null (no error, no fallback to another date). -/
theorem claim_C5_wow_change :
    (∀ (x y : Option ℚ) (r : ℚ),
      calculate_wow_change x y = some r ↔
        ∃ c p, x = some c ∧ y = some p ∧ p ≠ 0 ∧ r = (c - p) / p * 100) ∧
    (∀ x : ℚ, x ≠ 0 → calculate_wow_change (some x) (some x) = some 0) ∧
    (∀ y, calculate_wow_change none y = none) ∧
    (∀ x, calculate_wow_change x none = none) ∧
    (∀ c : ℚ, calculate_wow_change (some c) (some 0) = none) ∧
    (∀ (db : DB) (name : String) (calc_date : ℤ),
      get_previous_week_metrics db name calc_date =
        alookup (name, calc_date - 7) db.subreddit_metrics) ∧
    (∀ (db : DB) (name : String) (calc_date : ℤ) (st : RollingStats),
      get_previous_week_metrics db name calc_date = none →
        (build_metrics_row st (get_previous_week_metrics db name calc_date)).subscribers_wow_change = none ∧
        (build_metrics_row st (get_previous_week_metrics db name calc_date)).posts_wow_change = none ∧
        (build_metrics_row st (get_previous_week_metrics db name calc_date)).score_wow_change = none ∧
        (build_metrics_row st (get_previous_week_metrics db name calc_date)).comments_wow_change = none ∧
        (build_metrics_row st (get_previous_week_metrics db name calc_date)).upvotes_wow_change = none) := by
  refine ⟨?_, ?_, ?_, ?_, ?_, ?_, ?_⟩
  · intro x y r
    cases x with
    | none => simp [calculate_wow_change]
    | some c =>
      cases y with
      | none => simp [calculate_wow_change]
      | some p =>
        by_cases hp : p = 0
        · subst hp; simp [calculate_wow_change]
        · simp only [calculate_wow_change, if_neg hp, Option.some.injEq]
          constructor
          · intro h
            exact ⟨c, p, rfl, rfl, hp, h.symm⟩
          · rintro ⟨c2, p2, hc, hp2, _, hr⟩
            cases hc; cases hp2
            exact hr.symm
  · intro x hx
    simp [calculate_wow_change, hx]
  · intro y
    cases y <;> rfl
  · intro x
    cases x <;> rfl
  · intro c
    simp [calculate_wow_change]
  · intro db name calc_date
    rfl
  · intro db name calc_date st h
    rw [h]
    exact ⟨rfl, rfl, rfl, rfl, rfl⟩

/-- Witness for claim C5 at concrete inputs: wow(5, 5) = 0, and with an
empty store the D-7 lookup is empty so the built row's subscriber WoW field
is null. -/
theorem claim_C5_wow_change_witness :
    ((5 : ℚ) ≠ 0 ∧ calculate_wow_change (some 5) (some 5) = some 0) ∧
    (get_previous_week_metrics ⟨[], [], [], [], [], []⟩ "ohio" 0 = none ∧
      (build_metrics_row (rolling_stats_record [] [] 0)
        (get_previous_week_metrics ⟨[], [], [], [], [], []⟩ "ohio" 0)).subscribers_wow_change = none) :=
  ⟨⟨by norm_num, claim_C5_wow_change.2.1 5 (by norm_num)⟩,
   ⟨rfl, (claim_C5_wow_change.2.2.2.2.2.2 ⟨[], [], [], [], [], []⟩ "ohio" 0
      (rolling_stats_record [] [] 0) rfl).1⟩⟩

/-- Claim C6: estimated votes are (None, None) exactly when the score or
ratio is null or the ratio is exactly one half; otherwise both are defined
by total = score / (2 r - 1), up = round(total * r),
down = round(total * (1 - r)). -/
theorem claim_C6_estimated_votes :
    (∀ score uvr : Option ℚ,
      calculate_estimated_votes score uvr = (none, none) ↔
        score = none ∨ uvr = none ∨ uvr = some (1 / 2)) ∧
    (∀ sc r : ℚ, r ≠ 1 / 2 →
      calculate_estimated_votes (some sc) (some r) =
        (some (pyRound (sc / (2 * r - 1) * r)),
         some (pyRound (sc / (2 * r - 1) * (1 - r))))) := by
  constructor
  · intro score uvr
    cases score with
    | none => simp [calculate_estimated_votes]
    | some sc =>
      cases uvr with
      | none => simp [calculate_estimated_votes]
      | some r =>
        by_cases h : r = 1 / 2
        · subst h; simp [calculate_estimated_votes]
        · simp [calculate_estimated_votes, h]
  · intro sc r h
    have h2 : r ≠ 2⁻¹ := by
      intro hr
      exact h (by rw [hr]; norm_num)
    simp [calculate_estimated_votes, h, h2]

/-- Witness for claim C6: score 10 at ratio 3/4 gives total 20, hence
15 estimated upvotes and 5 estimated downvotes. -/
theorem claim_C6_estimated_votes_witness :
    (3 : ℚ) / 4 ≠ 1 / 2 ∧
    calculate_estimated_votes (some 10) (some (3 / 4)) =
      (some (pyRound ((10 : ℚ) / (2 * (3 / 4) - 1) * (3 / 4))),
       some (pyRound ((10 : ℚ) / (2 * (3 / 4) - 1) * (1 - 3 / 4)))) :=
  ⟨by norm_num, claim_C6_estimated_votes.2 10 (3 / 4) (by norm_num)⟩

lemma foldl_min_spec (l : List ℚ) : ∀ a : ℚ,
    (l.foldl min a = a ∨ l.foldl min a ∈ l) ∧ l.foldl min a ≤ a ∧
      ∀ x ∈ l, l.foldl min a ≤ x := by
  induction l with
  | nil => intro a; exact ⟨Or.inl rfl, le_refl a, by intro x hx; cases hx⟩
  | cons b t ih =>
    intro a
    obtain ⟨hmem, hle, hall⟩ := ih (min a b)
    have hmin : t.foldl min (min a b) ≤ min a b := hle
    refine ⟨?_, ?_, ?_⟩
    · rcases hmem with h | h
      · rcases min_choice a b with hc | hc
        · exact Or.inl (by rw [List.foldl_cons, h, hc])
        · exact Or.inr (by rw [List.foldl_cons, h, hc]; exact List.mem_cons_self b t)
      · exact Or.inr (List.mem_cons_of_mem b h)
    · exact le_trans hmin (min_le_left a b)
    · intro x hx
      rcases List.mem_cons.mp hx with h | h
      · rw [h]
        exact le_trans hmin (min_le_right a b)
      · exact hall x h

lemma foldl_max_spec (l : List ℚ) : ∀ a : ℚ,
    (l.foldl max a = a ∨ l.foldl max a ∈ l) ∧ a ≤ l.foldl max a ∧
      ∀ x ∈ l, x ≤ l.foldl max a := by
  induction l with
  | nil => intro a; exact ⟨Or.inl rfl, le_refl a, by intro x hx; cases hx⟩
  | cons b t ih =>
    intro a
    obtain ⟨hmem, hle, hall⟩ := ih (max a b)
    have hmax : max a b ≤ t.foldl max (max a b) := hle
    refine ⟨?_, ?_, ?_⟩
    · rcases hmem with h | h
      · rcases max_choice a b with hc | hc
        · exact Or.inl (by rw [List.foldl_cons, h, hc])
        · exact Or.inr (by rw [List.foldl_cons, h, hc]; exact List.mem_cons_self b t)
      · exact Or.inr (List.mem_cons_of_mem b h)
    · exact le_trans (le_max_left a b) hmax
    · intro x hx
      rcases List.mem_cons.mp hx with h | h
      · rw [h]
        exact le_trans (le_max_right a b) hmax
      · exact hall x h

lemma listMin_spec (l : List ℚ) (h : l ≠ []) :
    listMin l ∈ l ∧ ∀ x ∈ l, listMin l ≤ x := by
  match l with
  | [] => exact absurd rfl h
  | x :: xs =>
    obtain ⟨hmem, hle, hall⟩ := foldl_min_spec xs x
    refine ⟨?_, ?_⟩
    · rcases hmem with h2 | h2
      · rw [listMin, h2]; exact List.mem_cons_self x xs
      · exact List.mem_cons_of_mem x h2
    · intro y hy
      rcases List.mem_cons.mp hy with h2 | h2
      · rw [h2]; exact hle
      · exact hall y h2

lemma listMax_spec (l : List ℚ) (h : l ≠ []) :
    listMax l ∈ l ∧ ∀ x ∈ l, x ≤ listMax l := by
  match l with
  | [] => exact absurd rfl h
  | x :: xs =>
    obtain ⟨hmem, hle, hall⟩ := foldl_max_spec xs x
    refine ⟨?_, ?_⟩
    · rcases hmem with h2 | h2
      · rw [listMax, h2]; exact List.mem_cons_self x xs
      · exact List.mem_cons_of_mem x h2
    · intro y hy
      rcases List.mem_cons.mp hy with h2 | h2
      · rw [h2]; exact hle
      · exact hall y h2

lemma sampleVariance_nonneg (l : List ℚ) (h : 2 ≤ l.length) :
    0 ≤ sampleVariance l := by
  unfold sampleVariance
  apply div_nonneg
  · apply List.sum_nonneg
    intro y hy
    obtain ⟨x, _, hx⟩ := List.mem_map.mp hy
    rw [← hx]
    positivity
  · have : (2 : ℚ) ≤ (l.length : ℚ) := by exact_mod_cast h
    linarith

lemma calculate_dispersion_stats_of_two_le (values : List (Option ℚ))
    (h : 2 ≤ (values.filterMap id).length) :
    calculate_dispersion_stats values =
      { median := some (pyMedian (values.filterMap id))
        std_dev := some (pyStdev (values.filterMap id))
        min_value := some (listMin (values.filterMap id))
        max_value := some (listMax (values.filterMap id))
        p25 := some (((values.filterMap id).insertionSort (fun a b => a ≤ b)).getD
          (((values.filterMap id).insertionSort (fun a b => a ≤ b)).length / 4) 0)
        p75 := some (((values.filterMap id).insertionSort (fun a b => a ≤ b)).getD
          (3 * ((values.filterMap id).insertionSort (fun a b => a ≤ b)).length / 4) 0) } := by
  have hnlt : ¬ (values.filterMap id).length < 2 := Nat.not_lt.mpr h
  simp [calculate_dispersion_stats, hnlt]

/-- Claim C4: dispersion of a list — all fields null at 0 non-null
elements; median = min = max = the value and the rest null at 1 element;
for n at least 2: the median, a nonnegative standard deviation whose square
is the sample variance, the true minimum and maximum, and the elements at
indices n/4 and 3n/4 of the ascending-sorted list; in particular
[1,2,3,4,5] gives median 3, min 1, max 5, p25 2, p75 4. -/
theorem claim_C4_dispersion (values : List (Option ℚ)) :
    ((values.filterMap id).length = 0 →
      calculate_dispersion_stats values = ⟨none, none, none, none, none, none⟩) ∧
    (∀ v : ℚ, values.filterMap id = [v] →
      calculate_dispersion_stats values = ⟨some v, none, some v, some v, none, none⟩) ∧
    (2 ≤ (values.filterMap id).length →
      (calculate_dispersion_stats values).median = some (pyMedian (values.filterMap id)) ∧
      (∃ sd : ℝ, (calculate_dispersion_stats values).std_dev = some sd ∧ 0 ≤ sd ∧
        sd ^ 2 = ((sampleVariance (values.filterMap id) : ℚ) : ℝ)) ∧
      (∃ m : ℚ, (calculate_dispersion_stats values).min_value = some m ∧
        m ∈ values.filterMap id ∧ ∀ x ∈ values.filterMap id, m ≤ x) ∧
      (∃ M : ℚ, (calculate_dispersion_stats values).max_value = some M ∧
        M ∈ values.filterMap id ∧ ∀ x ∈ values.filterMap id, x ≤ M) ∧
      (calculate_dispersion_stats values).p25 =
        some (((values.filterMap id).insertionSort (fun a b => a ≤ b)).getD
          ((values.filterMap id).length / 4) 0) ∧
      (calculate_dispersion_stats values).p75 =
        some (((values.filterMap id).insertionSort (fun a b => a ≤ b)).getD
          (3 * (values.filterMap id).length / 4) 0)) ∧
    ((calculate_dispersion_stats
        [some 1, some 2, some 3, some 4, some 5]).median = some 3 ∧
      (calculate_dispersion_stats
        [some 1, some 2, some 3, some 4, some 5]).min_value = some 1 ∧
      (calculate_dispersion_stats
        [some 1, some 2, some 3, some 4, some 5]).max_value = some 5 ∧
      (calculate_dispersion_stats
        [some 1, some 2, some 3, some 4, some 5]).p25 = some 2 ∧
      (calculate_dispersion_stats
        [some 1, some 2, some 3, some 4, some 5]).p75 = some 4) := by
  have hsortlen : ((values.filterMap id).insertionSort (fun a b => a ≤ b)).length
      = (values.filterMap id).length :=
    (List.perm_insertionSort (fun a b => a ≤ b) (values.filterMap id)).length_eq
  refine ⟨?_, ?_, ?_, ?_⟩
  · intro h
    have hnil : values.filterMap id = [] := List.length_eq_zero.mp h
    simp [calculate_dispersion_stats, hnil]
  · intro v hv
    simp [calculate_dispersion_stats, hv]
  · intro h2
    have hne : values.filterMap id ≠ [] := by
      intro hn
      rw [hn] at h2
      simp at h2
    rw [calculate_dispersion_stats_of_two_le values h2]
    refine ⟨rfl, ?_, ?_, ?_, ?_, ?_⟩
    · refine ⟨pyStdev (values.filterMap id), rfl, Real.sqrt_nonneg _, ?_⟩
      unfold pyStdev
      apply Real.sq_sqrt
      exact_mod_cast sampleVariance_nonneg _ h2
    · obtain ⟨hm, hall⟩ := listMin_spec (values.filterMap id) hne
      exact ⟨listMin (values.filterMap id), rfl, hm, hall⟩
    · obtain ⟨hm, hall⟩ := listMax_spec (values.filterMap id) hne
      exact ⟨listMax (values.filterMap id), rfl, hm, hall⟩
    · rw [hsortlen]
    · rw [hsortlen]
  · refine ⟨?_, ?_, ?_, ?_, ?_⟩ <;>
      simp [calculate_dispersion_stats, pyMedian, listMin, listMax,
        List.insertionSort, List.orderedInsert] <;>
      norm_num

/-- Witness for claim C4 at the singleton input [3]: median, min and max
are 3 and the remaining fields null. -/
theorem claim_C4_dispersion_witness :
    (([some 3] : List (Option ℚ)).filterMap id = [3]) ∧
    calculate_dispersion_stats [some 3] = ⟨some 3, none, some 3, some 3, none, none⟩ :=
  ⟨by simp, (claim_C4_dispersion [some 3]).2.1 3 (by simp)⟩

/- Store lemmas: lookup and upsert on association-list stores. -/

lemma alookup_upsert {κ α : Type} [DecidableEq κ] (k k2 : κ) (v : α) (s : List (κ × α)) :
    alookup k (upsert k2 v s) = if k = k2 then some v else alookup k s := by
  induction s with
  | nil => by_cases hk : k = k2 <;> simp [upsert, alookup, hk]
  | cons hd t ih =>
    obtain ⟨k3, v3⟩ := hd
    by_cases h23 : k2 = k3
    · subst h23
      by_cases hk : k = k2 <;> simp [upsert, alookup, hk]
    · by_cases hk3 : k = k3
      · subst hk3
        have hk : k ≠ k2 := fun h => h23 (by rw [← h])
        simp [upsert, alookup, h23, hk]
      · simp [upsert, alookup, h23, hk3, ih]

lemma alookup_applyWrites_of_keys_ne {κ α : Type} [DecidableEq κ] (k : κ)
    (ws : List (κ × α)) : ∀ (s : List (κ × α)), (∀ p ∈ ws, p.1 ≠ k) →
    alookup k (applyWrites s ws) = alookup k s := by
  induction ws with
  | nil => intro s _; rfl
  | cons w t ih =>
    intro s h
    obtain ⟨k2, v2⟩ := w
    have hk2 : k ≠ k2 := fun hk => (h (k2, v2) (List.mem_cons_self _ _)) (hk ▸ rfl)
    calc alookup k (applyWrites (upsert k2 v2 s) t)
        = alookup k (upsert k2 v2 s) := ih _ (fun p hp => h p (List.mem_cons_of_mem _ hp))
      _ = alookup k s := by rw [alookup_upsert]; simp [hk2]

lemma alookup_applyWrites_mem {κ α : Type} [DecidableEq κ] (ws : List (κ × α)) :
    ∀ (s : List (κ × α)) (k : κ) (v : α), (ws.map Prod.fst).Nodup → (k, v) ∈ ws →
    alookup k (applyWrites s ws) = some v := by
  induction ws with
  | nil => intro s k v _ hmem; cases hmem
  | cons w t ih =>
    intro s k v hnd hmem
    obtain ⟨k2, v2⟩ := w
    rcases List.mem_cons.mp hmem with h | h
    · cases h
      have hnotin : ∀ p ∈ t, p.1 ≠ k := by
        intro p hp hpk
        have : k ∈ t.map Prod.fst := hpk ▸ List.mem_map_of_mem Prod.fst hp
        exact (List.nodup_cons.mp hnd).1 this
      show alookup k (applyWrites (upsert k v s) t) = some v
      rw [alookup_applyWrites_of_keys_ne k t _ hnotin, alookup_upsert]
      simp
    · exact ih _ k v (List.nodup_cons.mp hnd).2 h

lemma upsert_self {κ α : Type} [DecidableEq κ] (k : κ) (v : α) (s : List (κ × α))
    (h : alookup k s = some v) : upsert k v s = s := by
  induction s with
  | nil => simp [alookup] at h
  | cons hd t ih =>
    obtain ⟨k2, v2⟩ := hd
    by_cases hk : k = k2
    · subst hk
      simp [alookup] at h
      simp [upsert, h]
    · simp [alookup, hk] at h
      simp [upsert, hk, ih h]

lemma applyWrites_id {κ α : Type} [DecidableEq κ] (ws : List (κ × α)) :
    ∀ (s : List (κ × α)), (∀ p ∈ ws, alookup p.1 s = some p.2) →
    applyWrites s ws = s := by
  induction ws with
  | nil => intro s _; rfl
  | cons w t ih =>
    intro s h
    obtain ⟨k, v⟩ := w
    have h1 : upsert k v s = s := upsert_self k v s (h (k, v) (List.mem_cons_self _ _))
    show applyWrites (upsert k v s) t = s
    rw [h1]
    exact ih s (fun p hp => h p (List.mem_cons_of_mem _ hp))

lemma filterMap_some_eq_map {α β : Type} (g : α → β) (l : List α) :
    l.filterMap (fun x => some (g x)) = l.map g := by
  induction l with
  | nil => rfl
  | cons a t ih => simp [List.filterMap_cons, ih]

/- The step-1 list always keeps every subreddit (the rolling-stats
computation never returns the None sentinel). -/

lemma subreddit_metrics_data_eq_map (db : DB) (D : ℤ) :
    subreddit_metrics_data db D = db.subreddits.map (fun name =>
      (name, build_metrics_row
        (rolling_stats_record (entitySnapshots db name) (entityPosts db name) D)
        (get_previous_week_metrics db name D))) := by
  unfold subreddit_metrics_data
  exact filterMap_some_eq_map _ db.subreddits

lemma subreddit_metrics_data_fst (db : DB) (D : ℤ) :
    (subreddit_metrics_data db D).map Prod.fst = db.subreddits := by
  rw [subreddit_metrics_data_eq_map, List.map_map]
  have : (Prod.fst ∘ fun name : String =>
      (name, build_metrics_row
        (rolling_stats_record (entitySnapshots db name) (entityPosts db name) D)
        (get_previous_week_metrics db name D))) = id := rfl
  rw [this, List.map_id]

lemma ranked_rows_fst (db : DB) (D : ℤ) :
    (ranked_rows db D).map Prod.fst = db.subreddits := by
  unfold ranked_rows
  rw [List.map_map]
  have : (Prod.fst ∘ fun p : String × SMRow =>
      (p.1, assign_ranks (subreddit_metrics_data db D) p.1 p.2)) = Prod.fst := rfl
  rw [this, subreddit_metrics_data_fst]

lemma smWrites_keys (db : DB) (D : ℤ) :
    (smWrites db D).map Prod.fst = db.subreddits.map (fun n => (n, D)) := by
  unfold smWrites
  rw [List.map_map]
  have : (Prod.fst ∘ fun p : String × SMRow => ((p.1, D), p.2))
      = (fun n => (n, D)) ∘ Prod.fst := rfl
  rw [this, ← List.map_map, ranked_rows_fst]

lemma smWrites_keys_nodup (db : DB) (D : ℤ) (h : db.subreddits.Nodup) :
    ((smWrites db D).map Prod.fst).Nodup := by
  rw [smWrites_keys]
  exact h.map (fun a b hab => congrArg Prod.fst hab)

/-- Claim C7 as stated is false: with tracked entities ["a", "b"] and a
per-entity computation that raises on "a", the step-1 loop (which has no
try/except) propagates the exception instead of catching it and moving on,
so the run aborts and "b" is never processed. -/
theorem claim_C7_counterexample :
    process_subreddits
      (fun n => if n = "a" then Except.error "boom" else Except.ok (some (0 : ℕ)))
      ["a", "b"] = Except.error "boom" := by
  rfl

/-- Claim C7 (amended): within one date's run the per-entity loop has no
exception handling — the first entity fault aborts processing of the
remaining entities; per-DATE exception handling exists only in backfill
mode, where a failing date is caught and the remaining dates still run. -/
theorem claim_C7_amended {ε M : Type} :
    (∀ (f : String → Except ε (Option M)) (l1 l2 : List String) (n : String) (e : ε),
      (∀ m ∈ l1, ∃ r, f m = Except.ok r) → f n = Except.error e →
      process_subreddits f (l1 ++ n :: l2) = Except.error e) ∧
    (∀ (runE : DB → ℤ → Except ε DB) (db : DB) (d : ℤ) (rest : List ℤ) (e : ε),
      runE db d = Except.error e →
      backfill_run runE db (d :: rest) = backfill_run runE db rest) := by
  constructor
  · intro f l1 l2 n e hok hn
    induction l1 with
    | nil => simp [process_subreddits, hn]
    | cons m t ih =>
      obtain ⟨r, hr⟩ := hok m (List.mem_cons_self _ _)
      have hrest := ih (fun m2 hm2 => hok m2 (List.mem_cons_of_mem _ hm2))
      cases r with
      | none => simpa [process_subreddits, hr] using hrest
      | some x => simp [process_subreddits, hr, hrest]
  · intro runE db d rest e h
    simp [backfill_run, h]

/-- Witness for the amended claim C7: entity "b" of ["a", "b", "c"] raises,
entity "a" succeeds, and the whole loop returns the error; in backfill
mode the failing date 5 is skipped and the run continues. -/
theorem claim_C7_amended_witness :
    ((∀ m ∈ ["a"], ∃ r, (fun n => if n = "b" then Except.error "boom"
        else Except.ok (some (0 : ℕ))) m = Except.ok r) ∧
      (fun n => if n = "b" then Except.error "boom"
        else Except.ok (some (0 : ℕ))) "b" = Except.error "boom" ∧
      process_subreddits (fun n => if n = "b" then Except.error "boom"
        else Except.ok (some (0 : ℕ))) (["a"] ++ "b" :: ["c"]) = Except.error "boom") ∧
    ((fun (_ : DB) (_ : ℤ) => (Except.error "late" : Except String DB)) ⟨[], [], [], [], [], []⟩ 5
        = Except.error "late" ∧
      backfill_run (fun _ _ => Except.error "late") ⟨[], [], [], [], [], []⟩ (5 :: [6])
        = backfill_run (fun _ _ => Except.error "late") ⟨[], [], [], [], [], []⟩ [6]) :=
  ⟨⟨by intro m hm; simp at hm; subst hm; exact ⟨some 0, rfl⟩, rfl,
    (@claim_C7_amended String ℕ).1 _ ["a"] ["c"] "b" "boom"
      (by intro m hm; simp at hm; subst hm; exact ⟨some 0, rfl⟩) rfl⟩,
   ⟨rfl, (@claim_C7_amended String ℕ).2 _ ⟨[], [], [], [], [], []⟩ 5 [6] "late" rfl⟩⟩

/-- Claim C10: the rolling-stats computation always returns a record (never
the insufficient-data None), so the skip branch is dead and every tracked
subreddit receives a SubredditMetrics row on every run; a subreddit with no
snapshot and no post rows gets a row whose ten averages are all null. -/
theorem claim_C10_every_entity_row :
    (∀ (snaps : List Snapshot) (posts : List PostRow) (D : ℤ),
      (calculate_subreddit_rolling_stats snaps posts D).isSome) ∧
    (∀ (db : DB) (D : ℤ) (name : String), db.subreddits.Nodup → name ∈ db.subreddits →
      ∃ row : SMRow,
        alookup (name, D) (calculate_metrics_for_date db D).subreddit_metrics = some row ∧
        (entitySnapshots db name = [] → entityPosts db name = [] →
          row.subscribers_7day_avg = none ∧ row.posts_7day_avg = none ∧
          row.score_7day_avg = none ∧ row.comments_7day_avg = none ∧
          row.upvotes_7day_avg = none ∧ row.subscribers_30day_avg = none ∧
          row.posts_30day_avg = none ∧ row.score_30day_avg = none ∧
          row.comments_30day_avg = none ∧ row.upvotes_30day_avg = none)) := by
  constructor
  · intro snaps posts D
    rfl
  · intro db D name hnd hmem
    set row := assign_ranks (subreddit_metrics_data db D) name
      (build_metrics_row
        (rolling_stats_record (entitySnapshots db name) (entityPosts db name) D)
        (get_previous_week_metrics db name D)) with hrow
    have hin : ((name, D), row) ∈ smWrites db D := by
      unfold smWrites ranked_rows
      rw [subreddit_metrics_data_eq_map]
      rw [List.map_map, List.map_map]
      refine List.mem_map.mpr ⟨name, hmem, ?_⟩
      simp only [Function.comp_apply]
      rw [hrow, subreddit_metrics_data_eq_map]
    refine ⟨row, ?_, ?_⟩
    · exact alookup_applyWrites_mem (smWrites db D) db.subreddit_metrics (name, D) row
        (smWrites_keys_nodup db D hnd) hin
    · intro hsnaps hposts
      rw [hrow]
      have havg : rolling_stats_record (entitySnapshots db name) (entityPosts db name) D
          = rolling_stats_record [] [] D := by rw [hsnaps, hposts]
      rw [havg]
      exact ⟨rfl, rfl, rfl, rfl, rfl, rfl, rfl, rfl, rfl, rfl⟩

/-- Witness for claim C10: a store tracking the single subreddit "ohio"
with no snapshot or post rows; the run at date 0 stores a row for it. -/
theorem claim_C10_every_entity_row_witness :
    (([("ohio" : String)] : List String).Nodup ∧ ("ohio" : String) ∈ ["ohio"]) ∧
    ∃ row : SMRow,
      alookup ("ohio", (0 : ℤ))
        (calculate_metrics_for_date ⟨["ohio"], [], [], [], [], []⟩ 0).subreddit_metrics
        = some row ∧
      (entitySnapshots ⟨["ohio"], [], [], [], [], []⟩ "ohio" = [] →
        entityPosts ⟨["ohio"], [], [], [], [], []⟩ "ohio" = [] →
        row.subscribers_7day_avg = none ∧ row.posts_7day_avg = none ∧
        row.score_7day_avg = none ∧ row.comments_7day_avg = none ∧
        row.upvotes_7day_avg = none ∧ row.subscribers_30day_avg = none ∧
        row.posts_30day_avg = none ∧ row.score_30day_avg = none ∧
        row.comments_30day_avg = none ∧ row.upvotes_30day_avg = none) :=
  ⟨⟨by simp, by simp⟩,
    claim_C10_every_entity_row.2 ⟨["ohio"], [], [], [], [], []⟩ 0 "ohio"
      (by simp) (by simp)⟩

/- Lemmas on calculate_ranks. -/

lemma alookup_eq_some_of_mem {κ α : Type} [DecidableEq κ] (al : List (κ × α)) :
    ∀ (k : κ) (v : α), (al.map Prod.fst).Nodup → (k, v) ∈ al → alookup k al = some v := by
  induction al with
  | nil => intro k v _ hmem; cases hmem
  | cons hd t ih =>
    intro k v hnd hmem
    obtain ⟨k2, v2⟩ := hd
    simp only [List.map_cons, List.nodup_cons] at hnd
    rcases List.mem_cons.mp hmem with h | h
    · cases h
      simp [alookup]
    · have hk : k ≠ k2 := by
        intro hkk
        subst hkk
        exact hnd.1 (List.mem_map_of_mem Prod.fst h)
      simp only [alookup, if_neg hk]
      exact ih k v hnd.2 h

lemma mem_of_alookup {κ α : Type} [DecidableEq κ] (al : List (κ × α)) :
    ∀ (k : κ) (v : α), alookup k al = some v → (k, v) ∈ al := by
  induction al with
  | nil => intro k v h; cases h
  | cons hd t ih =>
    intro k v h
    obtain ⟨k2, v2⟩ := hd
    by_cases hk : k = k2
    · subst hk
      simp [alookup] at h
      subst h
      exact List.mem_cons_self _ _
    · simp only [alookup, if_neg hk] at h
      exact List.mem_cons_of_mem _ (ih k v h)

lemma nodup_keys_value_eq {κ α : Type} [DecidableEq κ] {al : List (κ × α)} {k : κ} {a b : α}
    (hnd : (al.map Prod.fst).Nodup) (ha : (k, a) ∈ al) (hb : (k, b) ∈ al) : a = b := by
  have h1 := alookup_eq_some_of_mem al k a hnd ha
  have h2 := alookup_eq_some_of_mem al k b hnd hb
  rw [h1] at h2
  exact Option.some.inj h2

lemma validEntries_keys_sublist (l : List (String × Option ℚ)) :
    List.Sublist ((validEntries l).map Prod.fst) (l.map Prod.fst) := by
  induction l with
  | nil => simp [validEntries]
  | cons p t ih =>
    obtain ⟨n, o⟩ := p
    cases o with
    | none =>
      have he : validEntries ((n, none) :: t) = validEntries t := by
        simp [validEntries, List.filterMap_cons]
      rw [he, List.map_cons]
      exact ih.cons n
    | some v =>
      by_cases hdc : n.toLower = DC_SUBREDDIT_NAME.toLower
      · have he : validEntries ((n, some v) :: t) = validEntries t := by
          simp [validEntries, List.filterMap_cons, hdc]
        rw [he, List.map_cons]
        exact ih.cons n
      · have he : validEntries ((n, some v) :: t) = (n, v) :: validEntries t := by
          simp [validEntries, List.filterMap_cons, hdc]
        rw [he, List.map_cons, List.map_cons]
        exact ih.cons₂ n

lemma mem_validEntries (l : List (String × Option ℚ)) (n : String) (v : ℚ) :
    (n, v) ∈ validEntries l ↔
      (n, some v) ∈ l ∧ n.toLower ≠ DC_SUBREDDIT_NAME.toLower := by
  induction l with
  | nil => simp [validEntries]
  | cons p t ih =>
    obtain ⟨m, o⟩ := p
    cases o with
    | none =>
      have he : validEntries ((m, none) :: t) = validEntries t := by
        simp [validEntries, List.filterMap_cons]
      rw [he, ih]
      simp
    | some w =>
      by_cases hdc : m.toLower = DC_SUBREDDIT_NAME.toLower
      · have he : validEntries ((m, some w) :: t) = validEntries t := by
          simp [validEntries, List.filterMap_cons, hdc]
        rw [he, ih]
        constructor
        · rintro ⟨hm, hndc⟩
          exact ⟨List.mem_cons_of_mem _ hm, hndc⟩
        · rintro ⟨hm, hndc⟩
          rcases List.mem_cons.mp hm with h | h
          · exfalso
            have hn : n = m := congrArg Prod.fst h
            exact hndc (hn ▸ hdc)
          · exact ⟨h, hndc⟩
      · have he : validEntries ((m, some w) :: t) = (m, w) :: validEntries t := by
          simp [validEntries, List.filterMap_cons, hdc]
        rw [he]
        constructor
        · intro hm
          rcases List.mem_cons.mp hm with h | h
          · have hn : n = m := congrArg Prod.fst h
            have hv : v = w := congrArg Prod.snd h
            subst hn; subst hv
            exact ⟨List.mem_cons_self _ _, hdc⟩
          · obtain ⟨hm2, hndc⟩ := ih.mp h
            exact ⟨List.mem_cons_of_mem _ hm2, hndc⟩
        · rintro ⟨hm, hndc⟩
          rcases List.mem_cons.mp hm with h | h
          · have hn : n = m := congrArg Prod.fst h
            have hv : some v = some w := congrArg Prod.snd h
            subst hn
            rw [Option.some.inj hv]
            exact List.mem_cons_self _ _
          · exact List.mem_cons_of_mem _ (ih.mpr ⟨h, hndc⟩)

lemma ranksFrom_fst (l : List (String × ℚ)) :
    ∀ k, (ranksFrom k l).map Prod.fst = l.map Prod.fst := by
  induction l with
  | nil => intro k; rfl
  | cons e t ih => intro k; simp [ranksFrom, ih]

lemma mem_ranksFrom (l : List (String × ℚ)) : ∀ (k : ℕ) (n : String) (r : ℕ),
    (n, r) ∈ ranksFrom k l ↔
      ∃ i e, l.get? i = some e ∧ e.1 = n ∧ r = k + i := by
  induction l with
  | nil => intro k n r; simp [ranksFrom]
  | cons e t ih =>
    intro k n r
    simp only [ranksFrom, List.mem_cons, ih]
    constructor
    · rintro (h | ⟨i, e2, hget, hn, hr⟩)
      · have hn : n = e.1 := congrArg Prod.fst h
        have hr : r = k := congrArg Prod.snd h
        exact ⟨0, e, by simp, hn.symm, by omega⟩
      · exact ⟨i + 1, e2, by simpa using hget, hn, by omega⟩
    · rintro ⟨i, e2, hget, hn, hr⟩
      cases i with
      | zero =>
        left
        simp only [List.get?_cons_zero] at hget
        have he : e = e2 := Option.some.inj hget
        subst he
        subst hn
        have : r = k := by omega
        subst this
        rfl
      | succ j =>
        right
        exact ⟨j, e2, by simpa using hget, hn, by omega⟩

lemma stored_rank_eq_some (l : List (String × Option ℚ)) (n : String) (r : ℕ) :
    stored_rank l n = some r ↔
      n.toLower ≠ DC_SUBREDDIT_NAME.toLower ∧ alookup n (calculate_ranks l) = some r := by
  unfold stored_rank
  by_cases hdc : n.toLower = DC_SUBREDDIT_NAME.toLower <;> simp [hdc]

/-- Claim C3: per metric, rank assignment restricted to entities with a
non-null value that are not the capital entity is a bijection onto 1..N,
assigned in descending value order with rank 1 the highest; the capital
entity's stored rank is always null, and a null-valued entity's stored rank
is null. -/
theorem claim_C3_rank_bijection (l : List (String × Option ℚ))
    (hnd : (l.map Prod.fst).Nodup) :
    (∀ p ∈ validEntries l, ∃ r, stored_rank l p.1 = some r ∧
      1 ≤ r ∧ r ≤ (validEntries l).length) ∧
    (∀ n1 n2 r, stored_rank l n1 = some r → stored_rank l n2 = some r → n1 = n2) ∧
    (∀ r, 1 ≤ r → r ≤ (validEntries l).length →
      ∃ n v, (n, v) ∈ validEntries l ∧ stored_rank l n = some r) ∧
    (∀ n1 n2 v1 v2 r1 r2, (n1, v1) ∈ validEntries l → (n2, v2) ∈ validEntries l →
      stored_rank l n1 = some r1 → stored_rank l n2 = some r2 → r1 < r2 → v2 ≤ v1) ∧
    (∀ n, n.toLower = DC_SUBREDDIT_NAME.toLower → stored_rank l n = none) ∧
    (∀ n, (n, (none : Option ℚ)) ∈ l → stored_rank l n = none) := by
  have hperm : List.Perm ((validEntries l).insertionSort rankOrd) (validEntries l) :=
    List.perm_insertionSort rankOrd (validEntries l)
  have hpair : List.Pairwise rankOrd ((validEntries l).insertionSort rankOrd) :=
    List.sorted_insertionSort rankOrd (validEntries l)
  have hvk : ((validEntries l).map Prod.fst).Nodup :=
    (validEntries_keys_sublist l).nodup hnd
  have hsk : (((validEntries l).insertionSort rankOrd).map Prod.fst).Nodup :=
    ((hperm.map Prod.fst).nodup_iff).mpr hvk
  have hrk : ((ranksFrom 1 ((validEntries l).insertionSort rankOrd)).map Prod.fst).Nodup := by
    rw [ranksFrom_fst]
    exact hsk
  have hranks_eq : calculate_ranks l = ranksFrom 1 ((validEntries l).insertionSort rankOrd) := rfl
  have hlen : ((validEntries l).insertionSort rankOrd).length = (validEntries l).length :=
    hperm.length_eq
  refine ⟨?_, ?_, ?_, ?_, ?_, ?_⟩
  · intro p hp
    have hps : p ∈ (validEntries l).insertionSort rankOrd := hperm.mem_iff.mpr hp
    obtain ⟨i, hget⟩ := List.mem_iff_get.mp hps
    have hgq : ((validEntries l).insertionSort rankOrd).get? i.1 = some p := by
      rw [List.get?_eq_get i.isLt, hget]
    have hmem : (p.1, 1 + i.1) ∈ ranksFrom 1 ((validEntries l).insertionSort rankOrd) :=
      (mem_ranksFrom _ 1 p.1 (1 + i.1)).mpr ⟨i.1, p, hgq, rfl, rfl⟩
    have hdc : p.1.toLower ≠ DC_SUBREDDIT_NAME.toLower :=
      ((mem_validEntries l p.1 p.2).mp hp).2
    refine ⟨1 + i.1, ?_, by omega, ?_⟩
    · rw [stored_rank_eq_some]
      exact ⟨hdc, by rw [hranks_eq]; exact alookup_eq_some_of_mem _ _ _ hrk hmem⟩
    · have := i.isLt
      omega
  · intro n1 n2 r h1 h2
    obtain ⟨-, hl1⟩ := (stored_rank_eq_some l n1 r).mp h1
    obtain ⟨-, hl2⟩ := (stored_rank_eq_some l n2 r).mp h2
    rw [hranks_eq] at hl1 hl2
    obtain ⟨i1, e1, hget1, hfst1, hr1⟩ :=
      (mem_ranksFrom _ 1 n1 r).mp (mem_of_alookup _ _ _ hl1)
    obtain ⟨i2, e2, hget2, hfst2, hr2⟩ :=
      (mem_ranksFrom _ 1 n2 r).mp (mem_of_alookup _ _ _ hl2)
    have hi : i1 = i2 := by omega
    subst hi
    rw [hget1] at hget2
    have he : e1 = e2 := Option.some.inj hget2
    rw [← hfst1, ← hfst2, he]
  · intro r hr1 hrN
    have hi : r - 1 < ((validEntries l).insertionSort rankOrd).length := by omega
    obtain ⟨e, hgq⟩ : ∃ e, ((validEntries l).insertionSort rankOrd).get? (r - 1) = some e :=
      ⟨_, List.get?_eq_get hi⟩
    have hmem : (e.1, 1 + (r - 1)) ∈ ranksFrom 1 ((validEntries l).insertionSort rankOrd) :=
      (mem_ranksFrom _ 1 e.1 (1 + (r - 1))).mpr ⟨r - 1, e, hgq, rfl, rfl⟩
    have h1r : 1 + (r - 1) = r := by omega
    rw [h1r] at hmem
    have hes : e ∈ (validEntries l).insertionSort rankOrd := by
      obtain ⟨hlt, hg⟩ := List.get?_eq_some.mp hgq
      rw [← hg]
      exact List.get_mem _ _ _
    have hev : e ∈ validEntries l := hperm.mem_iff.mp hes
    have hdc : e.1.toLower ≠ DC_SUBREDDIT_NAME.toLower :=
      ((mem_validEntries l e.1 e.2).mp hev).2
    refine ⟨e.1, e.2, hev, ?_⟩
    rw [stored_rank_eq_some]
    exact ⟨hdc, by rw [hranks_eq]; exact alookup_eq_some_of_mem _ _ _ hrk hmem⟩
  · intro n1 n2 v1 v2 r1 r2 hv1 hv2 h1 h2 hlt
    obtain ⟨-, hl1⟩ := (stored_rank_eq_some l n1 r1).mp h1
    obtain ⟨-, hl2⟩ := (stored_rank_eq_some l n2 r2).mp h2
    rw [hranks_eq] at hl1 hl2
    obtain ⟨i1, e1, hget1, hfst1, hr1⟩ :=
      (mem_ranksFrom _ 1 n1 r1).mp (mem_of_alookup _ _ _ hl1)
    obtain ⟨i2, e2, hget2, hfst2, hr2⟩ :=
      (mem_ranksFrom _ 1 n2 r2).mp (mem_of_alookup _ _ _ hl2)
    obtain ⟨hlt1, hg1⟩ := List.get?_eq_some.mp hget1
    obtain ⟨hlt2, hg2⟩ := List.get?_eq_some.mp hget2
    have hij : (⟨i1, hlt1⟩ : Fin _) < (⟨i2, hlt2⟩ : Fin _) := by
      simp only [Fin.mk_lt_mk]
      omega
    have hord : rankOrd e1 e2 := by
      have := (List.pairwise_iff_get.mp hpair) ⟨i1, hlt1⟩ ⟨i2, hlt2⟩ hij
      rwa [hg1, hg2] at this
    have he1v : e1 ∈ validEntries l := hperm.mem_iff.mp (by rw [← hg1]; exact List.get_mem _ _ _)
    have he2v : e2 ∈ validEntries l := hperm.mem_iff.mp (by rw [← hg2]; exact List.get_mem _ _ _)
    have hv1e : v1 = e1.2 := by
      apply nodup_keys_value_eq hvk hv1
      rw [← hfst1]
      exact he1v
    have hv2e : v2 = e2.2 := by
      apply nodup_keys_value_eq hvk hv2
      rw [← hfst2]
      exact he2v
    rw [hv1e, hv2e]
    exact hord
  · intro n hdc
    unfold stored_rank
    rw [if_pos hdc]
  · intro n hmem
    by_cases hdc : n.toLower = DC_SUBREDDIT_NAME.toLower
    · unfold stored_rank
      rw [if_pos hdc]
    · unfold stored_rank
      rw [if_neg hdc]
      cases hl : alookup n (calculate_ranks l) with
      | none => rfl
      | some r =>
        exfalso
        rw [hranks_eq] at hl
        obtain ⟨i, e, hget, hfst, hr⟩ :=
          (mem_ranksFrom _ 1 n r).mp (mem_of_alookup _ _ _ hl)
        obtain ⟨hlt, hg⟩ := List.get?_eq_some.mp hget
        have hev : e ∈ validEntries l :=
          hperm.mem_iff.mp (by rw [← hg]; exact List.get_mem _ _ _)
        have hsome : (n, some e.2) ∈ l := by
          have := (mem_validEntries l e.1 e.2).mp hev
          rw [hfst] at this
          exact this.1
        have : (none : Option ℚ) = some e.2 := nodup_keys_value_eq hnd hmem hsome
        cases this

/-- Witness for claim C3 at a concrete column: three entities with values
30, 10 and null plus the capital entity; the ranked subset has size 2 and
entity "a" with the top value receives rank 1. -/
theorem claim_C3_rank_bijection_witness :
    (((([("a", some 30), ("b", some 10), ("c", none),
        ("washingtondc", some 99)] : List (String × Option ℚ))).map Prod.fst).Nodup) ∧
    (∀ n, (n, (none : Option ℚ)) ∈
        ([("a", some 30), ("b", some 10), ("c", none), ("washingtondc", some 99)]
          : List (String × Option ℚ)) →
      stored_rank [("a", some 30), ("b", some 10), ("c", none), ("washingtondc", some 99)] n
        = none) :=
  ⟨by simp, (claim_C3_rank_bijection
    [("a", some 30), ("b", some 10), ("c", none), ("washingtondc", some 99)]
    (by simp)).2.2.2.2.2⟩

/- Idempotency of a re-run for the same date. -/

lemma smWrites_key_snd (db : DB) (D : ℤ) : ∀ p ∈ smWrites db D, p.1.2 = D := by
  intro p hp
  unfold smWrites at hp
  obtain ⟨q, _, rfl⟩ := List.mem_map.mp hp
  rfl

lemma get_prev_run (db : DB) (D : ℤ) (name : String) :
    get_previous_week_metrics (calculate_metrics_for_date db D) name D =
      get_previous_week_metrics db name D := by
  show alookup (name, D - 7) (calculate_metrics_for_date db D).subreddit_metrics
    = alookup (name, D - 7) db.subreddit_metrics
  have hproj : (calculate_metrics_for_date db D).subreddit_metrics = smAfter db D := rfl
  rw [hproj]
  unfold smAfter
  apply alookup_applyWrites_of_keys_ne
  intro p hp heq
  have h2 : p.1.2 = D := smWrites_key_snd db D p hp
  rw [heq] at h2
  simp at h2

lemma subreddit_metrics_data_run (db : DB) (D : ℤ) :
    subreddit_metrics_data (calculate_metrics_for_date db D) D =
      subreddit_metrics_data db D := by
  rw [subreddit_metrics_data_eq_map, subreddit_metrics_data_eq_map]
  have hsubs : (calculate_metrics_for_date db D).subreddits = db.subreddits := rfl
  rw [hsubs]
  apply List.map_congr_left
  intro name _
  have h1 : entitySnapshots (calculate_metrics_for_date db D) name
      = entitySnapshots db name := rfl
  have h2 : entityPosts (calculate_metrics_for_date db D) name
      = entityPosts db name := rfl
  rw [h1, h2, get_prev_run]

lemma ranked_rows_run (db : DB) (D : ℤ) :
    ranked_rows (calculate_metrics_for_date db D) D = ranked_rows db D := by
  unfold ranked_rows
  rw [subreddit_metrics_data_run]

lemma smWrites_run (db : DB) (D : ℤ) :
    smWrites (calculate_metrics_for_date db D) D = smWrites db D := by
  unfold smWrites
  rw [ranked_rows_run]

lemma smAfter_run (db : DB) (D : ℤ) (hnd : db.subreddits.Nodup) :
    smAfter (calculate_metrics_for_date db D) D = smAfter db D := by
  show applyWrites (calculate_metrics_for_date db D).subreddit_metrics
    (smWrites (calculate_metrics_for_date db D) D) = smAfter db D
  rw [smWrites_run]
  have hproj : (calculate_metrics_for_date db D).subreddit_metrics = smAfter db D := rfl
  rw [hproj]
  apply applyWrites_id
  intro p hp
  obtain ⟨k, v⟩ := p
  exact alookup_applyWrites_mem (smWrites db D) db.subreddit_metrics k v
    (smWrites_keys_nodup db D hnd) hp

lemma non_dc_run (db : DB) (D : ℤ) :
    non_dc_metrics (calculate_metrics_for_date db D) D = non_dc_metrics db D := by
  unfold non_dc_metrics
  rw [ranked_rows_run]

lemma gm_lookup_ne (db : DB) (D k : ℤ) (h : k ≠ D) :
    alookup k (gmAfter db D) = alookup k db.global_metrics := by
  unfold gmAfter
  split
  · rfl
  · rw [alookup_upsert]
    simp [h]

lemma global_row_run (db : DB) (D : ℤ) :
    global_row (calculate_metrics_for_date db D) D = global_row db D := by
  have hproj : (calculate_metrics_for_date db D).global_metrics = gmAfter db D := rfl
  simp only [global_row, non_dc_run, hproj, gm_lookup_ne db D (D - 7) (by omega)]

lemma gmAfter_run (db : DB) (D : ℤ) :
    gmAfter (calculate_metrics_for_date db D) D = gmAfter db D := by
  have hproj : (calculate_metrics_for_date db D).global_metrics = gmAfter db D := rfl
  unfold gmAfter
  rw [non_dc_run, global_row_run, hproj]
  by_cases h : (non_dc_metrics db D).length = 0
  · rw [if_pos h, if_pos h]
    unfold gmAfter
    rw [if_pos h]
  · rw [if_neg h, if_neg h]
    have hg : gmAfter db D = upsert D (global_row db D) db.global_metrics := by
      unfold gmAfter
      rw [if_neg h]
    rw [hg]
    apply upsert_self
    rw [alookup_upsert]
    simp

lemma subDispEntry_run (db : DB) (D : ℤ) (hnd : db.subreddits.Nodup) :
    subDispEntry (calculate_metrics_for_date db D) D = subDispEntry db D := by
  funext p
  unfold subDispEntry
  rw [smAfter_run db D hnd]

lemma globalDispWrites_run (db : DB) (D : ℤ) :
    globalDispWrites (calculate_metrics_for_date db D) D = globalDispWrites db D := by
  unfold globalDispWrites
  rw [non_dc_run]

lemma subDispWrites_run (db : DB) (D : ℤ) (hnd : db.subreddits.Nodup) :
    subDispWrites (calculate_metrics_for_date db D) D = subDispWrites db D := by
  unfold subDispWrites
  rw [ranked_rows_run, subDispEntry_run db D hnd]

lemma metric_names_nodup : (metric_to_field.map Prod.fst).Nodup := by
  simp [metric_to_field]

lemma mem_globalDispWrites_keys (db : DB) (D : ℤ) (k : DispKey)
    (hk : k ∈ (globalDispWrites db D).map Prod.fst) : k.2.1 = "global" := by
  unfold globalDispWrites at hk
  rw [List.map_map] at hk
  obtain ⟨mf, _, hkeq⟩ := List.mem_map.mp hk
  rw [← hkeq]
  rfl

lemma globalDispWrites_keys_nodup (db : DB) (D : ℤ) :
    ((globalDispWrites db D).map Prod.fst).Nodup := by
  unfold globalDispWrites
  rw [List.map_map]
  have h2 : (Prod.fst ∘ fun mf : String × (SMRow → Option ℚ) =>
      (((D, "global", (none : Option String), mf.1) : DispKey),
        calculate_dispersion_stats ((non_dc_metrics db D).map mf.2)))
      = (fun s : String => ((D, "global", none, s) : DispKey)) ∘ Prod.fst := rfl
  rw [h2, ← List.map_map]
  apply List.Nodup.map
  · intro a b hab
    exact congrArg (fun k : DispKey => k.2.2.2) hab
  · exact metric_names_nodup

lemma mem_subDispEntry_keys (db : DB) (D : ℤ) (p : String × SMRow) (k : DispKey)
    (hk : k ∈ (subDispEntry db D p).map Prod.fst) :
    k.2.1 = "subreddit" ∧ k.2.2.1 = some p.1 := by
  unfold subDispEntry at hk
  by_cases hc : ((smAfter db D).filter (fun q =>
      decide (q.1.1 = p.1) && decide (D - 6 ≤ q.1.2) && decide (q.1.2 ≤ D))).length < 2
  · simp only [if_pos hc] at hk
    cases hk
  · simp only [if_neg hc, List.map_map] at hk
    obtain ⟨mf, _, hkeq⟩ := List.mem_map.mp hk
    rw [← hkeq]
    exact ⟨rfl, rfl⟩

lemma subDispEntry_keys_nodup (db : DB) (D : ℤ) (p : String × SMRow) :
    ((subDispEntry db D p).map Prod.fst).Nodup := by
  unfold subDispEntry
  by_cases hc : ((smAfter db D).filter (fun q =>
      decide (q.1.1 = p.1) && decide (D - 6 ≤ q.1.2) && decide (q.1.2 ≤ D))).length < 2
  · rw [if_pos hc]
    simp
  · simp only [if_neg hc, List.map_map]
    have h2 : (Prod.fst ∘ fun mf : String × (SMRow → Option ℚ) =>
        (((D, "subreddit", some p.1, mf.1) : DispKey),
          calculate_dispersion_stats (((smAfter db D).filter (fun q =>
            decide (q.1.1 = p.1) && decide (D - 6 ≤ q.1.2) && decide (q.1.2 ≤ D))).map
              (fun q => mf.2 q.2))))
        = (fun s : String => ((D, "subreddit", some p.1, s) : DispKey)) ∘ Prod.fst := rfl
    rw [h2, ← List.map_map]
    apply List.Nodup.map
    · intro a b hab
      exact congrArg (fun k : DispKey => k.2.2.2) hab
    · exact metric_names_nodup

lemma subDispWrites_keys_nodup (db : DB) (D : ℤ) (hnd : db.subreddits.Nodup) :
    ((subDispWrites db D).map Prod.fst).Nodup := by
  unfold subDispWrites
  rw [List.map_flatMap]
  apply List.nodup_flatMap.mpr
  constructor
  · intro p _
    exact subDispEntry_keys_nodup db D p
  · have hrr : ((ranked_rows db D).map Prod.fst).Nodup := by
      rw [ranked_rows_fst]
      exact hnd
    have hpw : List.Pairwise (fun a b : String × SMRow => a.1 ≠ b.1) (ranked_rows db D) :=
      List.pairwise_map.mp hrr
    apply hpw.imp
    intro a b hab
    intro k hka hkb
    have h1 := (mem_subDispEntry_keys db D a k hka).2
    have h2 := (mem_subDispEntry_keys db D b k hkb).2
    rw [h1] at h2
    exact hab (Option.some.inj h2)

lemma dispWrites_keys_nodup (db : DB) (D : ℤ) (hnd : db.subreddits.Nodup) :
    (((globalDispWrites db D ++ subDispWrites db D)).map Prod.fst).Nodup := by
  rw [List.map_append]
  apply List.Nodup.append (globalDispWrites_keys_nodup db D)
    (subDispWrites_keys_nodup db D hnd)
  intro k hkg hks
  have h1 := mem_globalDispWrites_keys db D k hkg
  have h2 : k.2.1 = "subreddit" := by
    unfold subDispWrites at hks
    rw [List.map_flatMap] at hks
    obtain ⟨p, _, hp⟩ := List.mem_flatMap.mp hks
    exact (mem_subDispEntry_keys db D p k hp).1
  rw [h1] at h2
  exact absurd h2 (by decide)

/-- Claim C9: re-running calculate_metrics_for_date for the same date on
the resulting store (the raw event tables unchanged) leaves the store
identical — in particular the stored SubredditMetrics, GlobalMetrics and
MetricsDispersion rows for that date — because every persistence step is an
upsert by natural key writing the same values. -/
theorem claim_C9_idempotent (db : DB) (D : ℤ) (hnd : db.subreddits.Nodup) :
    calculate_metrics_for_date (calculate_metrics_for_date db D) D =
      calculate_metrics_for_date db D := by
  have hsm : smAfter (calculate_metrics_for_date db D) D = smAfter db D :=
    smAfter_run db D hnd
  have hgm : gmAfter (calculate_metrics_for_date db D) D = gmAfter db D :=
    gmAfter_run db D
  have hdisp : applyWrites (calculate_metrics_for_date db D).dispersion
      (globalDispWrites (calculate_metrics_for_date db D) D
        ++ subDispWrites (calculate_metrics_for_date db D) D)
      = applyWrites db.dispersion (globalDispWrites db D ++ subDispWrites db D) := by
    rw [globalDispWrites_run, subDispWrites_run db D hnd]
    have hproj : (calculate_metrics_for_date db D).dispersion
        = applyWrites db.dispersion (globalDispWrites db D ++ subDispWrites db D) := rfl
    rw [hproj]
    apply applyWrites_id
    intro p hp
    obtain ⟨k, v⟩ := p
    exact alookup_applyWrites_mem _ db.dispersion k v (dispWrites_keys_nodup db D hnd) hp
  show DB.mk (calculate_metrics_for_date db D).subreddits
      (calculate_metrics_for_date db D).snapshots
      (calculate_metrics_for_date db D).posts
      (smAfter (calculate_metrics_for_date db D) D)
      (gmAfter (calculate_metrics_for_date db D) D)
      (applyWrites (calculate_metrics_for_date db D).dispersion
        (globalDispWrites (calculate_metrics_for_date db D) D
          ++ subDispWrites (calculate_metrics_for_date db D) D))
    = calculate_metrics_for_date db D
  rw [hsm, hgm, hdisp]
  rfl

/-- Witness for claim C9: one tracked subreddit with one snapshot; running
the date-3 pipeline twice equals running it once. -/
theorem claim_C9_idempotent_witness :
    (["ohio"] : List String).Nodup ∧
    calculate_metrics_for_date
      (calculate_metrics_for_date ⟨["ohio"], [("ohio", ⟨1, some 42, some 2⟩)], [], [], [], []⟩ 3) 3
      = calculate_metrics_for_date ⟨["ohio"], [("ohio", ⟨1, some 42, some 2⟩)], [], [], [], []⟩ 3 :=
  ⟨by simp, claim_C9_idempotent ⟨["ohio"], [("ohio", ⟨1, some 42, some 2⟩)], [], [], [], []⟩ 3 (by simp)⟩

end Defmeta
